import Mathlib

/-!
Shallow embedding of the adaptive status-checker core from `lms.py`
(`Checker`, its `LMSChecker` specialization, and the pieces of state they
mutate), together with theorems settling the specification claims.

Modelling conventions:
* Python numbers used for timeouts, multipliers and intervals are embedded
  as exact rationals (`ℚ`); the configured values (5, 2.5, 30, ...) and the
  powers reached in the claims are exactly representable.
* The asynchronous `network_available()` call is embedded as an explicit
  boolean argument `netUp` to the step functions (one probe consults the
  guard at most once).
* Python's virtual dispatch of the `timeout` property (overridden by
  `LMSChecker`) is embedded by parameterizing the step functions over the
  timeout function `tf : Nat → ℚ` of the current multiplier power.
* Notifications dispatched by the `site_status` setter are returned as an
  `Option String` value instead of being fired as a task.
* Python list indexing (negative indices wrap once; out-of-range raises
  `IndexError`) is embedded by `pyGet`, returning `none` for the error case.
-/

/-- `RequestStatus` from `lms.py`. -/
inductive RequestStatus where
  | NONE
  | OK
  | TIMEOUT
  | CONNECTION_ERR
  | HTTP_ERR
  | OTHER
  deriving DecidableEq, Repr

/-- `SiteStatus` from `lms.py`. -/
inductive SiteStatus where
  | UNINITIALIZED
  | UP
  | DOWN
  deriving DecidableEq, Repr

/-- The configuration fields of `Checker.__init__` that are never mutated
after construction (`_domain`, `_timeout` via the setter, the multiplier,
ceiling, thresholds, recheck interval lists and the steady interval). -/
structure Config where
  domain : String
  timeout : ℚ
  timeout_multiplier : ℚ
  max_timeout : ℚ
  timeout_decrease_after : Int
  ok_recheck : Nat
  ok_recheck_intervals : List ℚ
  fail_recheck : Nat
  fail_recheck_intervals : List ℚ
  interval : ℚ
  deriving DecidableEq, Repr

/-- The mutable per-target state of a `Checker`: the stored request status,
the site status, both streak counters, and the timeout controller's power
and decrease countdown. -/
structure CheckerState where
  request_status : RequestStatus
  site_status : SiteStatus
  ok_count : Nat
  fail_count : Nat
  timeout_mul_pow : Nat
  timeout_decrease : Int
  deriving DecidableEq, Repr

/-- Python list indexing `l[i]`: nonnegative indices are looked up directly,
a negative index `i` addresses `l[len l + i]` when in range, and any other
index raises `IndexError` (embedded as `none`). -/
def pyGet (l : List ℚ) (i : Int) : Option ℚ :=
  if 0 ≤ i then l[i.toNat]?
  else if -i ≤ (l.length : Int) then l[l.length - (-i).toNat]? else none

/-- `Checker.__init__`: builds the immutable configuration, applying the
Python keyword defaults `ok_recheck_intervals = [10] * ok_recheck` and
`fail_recheck_intervals = [10, 20]` when the arguments are absent. -/
def Checker.mkConfig (domain : String) (timeout timeout_multiplier max_timeout : ℚ)
    (timeout_decrease_after : Int) (ok_recheck : Nat)
    (ok_recheck_intervals : Option (List ℚ)) (fail_recheck : Nat)
    (fail_recheck_intervals : Option (List ℚ)) (interval : ℚ) : Config :=
  { domain := domain
    timeout := timeout
    timeout_multiplier := timeout_multiplier
    max_timeout := max_timeout
    timeout_decrease_after := timeout_decrease_after
    ok_recheck := ok_recheck
    ok_recheck_intervals := ok_recheck_intervals.getD (List.replicate ok_recheck 10)
    fail_recheck := fail_recheck
    fail_recheck_intervals := fail_recheck_intervals.getD [10, 20]
    interval := interval }

/-- A configuration built with every keyword argument of `Checker.__init__`
left at its default (`timeout=5, timeout_multiplier=2.5, max_timeout=30,
timeout_decrease_after=5, ok_recheck=1, fail_recheck=2, interval=45`). -/
def Checker.defaults (domain : String) : Config :=
  Checker.mkConfig domain 5 (5/2) 30 5 1 none 2 none 45

/-- The mutable state right after `Checker.__init__`. -/
def initState : CheckerState :=
  { request_status := .NONE
    site_status := .UNINITIALIZED
    ok_count := 0
    fail_count := 0
    timeout_mul_pow := 0
    timeout_decrease := 0 }

/-- Python's binary `min` on rationals: the first argument when it does not
exceed the second. -/
def pymin (a b : ℚ) : ℚ := if a ≤ b then a else b

/-- Python's binary `max` on rationals: the second argument when the first
does not exceed it. -/
def pymax (a b : ℚ) : ℚ := if a ≤ b then b else a

/-- The `Checker.timeout` property getter:
`min(self._timeout * self.timeout_multiplier ** self._timeout_mul_pow, self.max_timeout)`. -/
def Checker.timeout (cfg : Config) (p : Nat) : ℚ :=
  pymin (cfg.timeout * cfg.timeout_multiplier ^ p) cfg.max_timeout

/-- The `Checker.site_status` property setter: stores the new value; on a
real transition (old value neither `UNINITIALIZED` nor equal to the new
value) it resets both streak counters and dispatches a notification. -/
def Checker.set_site_status (cfg : Config) (s₀ : CheckerState) (value : SiteStatus) :
    CheckerState × Option String :=
  if value = .UNINITIALIZED then ({ s₀ with site_status := value }, none)
  else
    let old := s₀.site_status
    let s := { s₀ with site_status := value }
    if old = .UNINITIALIZED ∨ old = value then (s, none)
    else
      let s := { s with ok_count := 0, fail_count := 0 }
      if value = .UP then (s, some ("✅ " ++ cfg.domain ++ " is up"))
      else (s, some ("❌ " ++ cfg.domain ++ " is down"))

/-- `Checker._try_decrease_timeout`: a no-op at power 0; otherwise counts
the decrease countdown down and, when it reaches 0, steps the power down by
one and restarts the countdown. -/
def Checker.try_decrease_timeout (cfg : Config) (s : CheckerState) : CheckerState :=
  if s.timeout_mul_pow = 0 then s
  else
    let d := s.timeout_decrease - 1
    if d = 0 then
      { s with timeout_mul_pow := s.timeout_mul_pow - 1,
               timeout_decrease := cfg.timeout_decrease_after }
    else { s with timeout_decrease := d }

/-- `Checker._try_increase_timeout`, parameterized over the (virtual)
`timeout` property `tf`: at the ceiling it forces the site status to
`DOWN`; otherwise it increments the power and restarts the decrease
countdown. -/
def Checker.try_increase_timeout (cfg : Config) (tf : Nat → ℚ) (s : CheckerState) :
    CheckerState × Option String :=
  if tf s.timeout_mul_pow = cfg.max_timeout then Checker.set_site_status cfg s .DOWN
  else ({ s with timeout_mul_pow := s.timeout_mul_pow + 1,
                 timeout_decrease := cfg.timeout_decrease_after }, none)

/-- `Checker.update_status`, parameterized over the (virtual) `timeout`
property `tf` and the result `netUp` of the `network_available()` guard
consulted during this call. Returns the new state and the notification
dispatched by the `site_status` setter, if any. -/
def Checker.update_status_tf (cfg : Config) (tf : Nat → ℚ) (netUp : Bool)
    (s₀ : CheckerState) (value : RequestStatus) : CheckerState × Option String :=
  let s := { s₀ with request_status := value }
  if value = .NONE then (s, none)
  else if value = .TIMEOUT then
    if netUp = false then (s, none)
    else
      let s := { s with ok_count := 0, fail_count := 0 }
      Checker.try_increase_timeout cfg tf s
  else
    let s := if value = .OK ∨ value = .HTTP_ERR then Checker.try_decrease_timeout cfg s else s
    if value = .OK then
      let s := if s.site_status = .UP ∨ s.site_status = .UNINITIALIZED then
                 { s with fail_count := 0 } else s
      if s.site_status = .DOWN ∨ s.site_status = .UNINITIALIZED then
        let s := { s with ok_count := s.ok_count + 1 }
        if s.ok_count = cfg.ok_recheck + 1 then Checker.set_site_status cfg s .UP
        else (s, none)
      else (s, none)
    else
      if value ≠ .HTTP_ERR ∧ netUp = false then (s, none)
      else
        let s := if s.site_status = .DOWN ∨ s.site_status = .UNINITIALIZED then
                   { s with ok_count := 0 } else s
        if s.site_status = .UP ∨ s.site_status = .UNINITIALIZED then
          let s := { s with fail_count := s.fail_count + 1 }
          if s.fail_count = cfg.fail_recheck + 1 then Checker.set_site_status cfg s .DOWN
          else (s, none)
        else (s, none)

/-- `Checker.update_status` for the base `Checker`, whose `timeout`
property is the adaptive `Checker.timeout`. -/
def Checker.update_status (cfg : Config) (netUp : Bool) (s : CheckerState)
    (value : RequestStatus) : CheckerState × Option String :=
  Checker.update_status_tf cfg (Checker.timeout cfg) netUp s value

/-- The `Checker.delta` property: the wait before the next probe, computed
from the stored request status, site status, streak counters and the
adaptive timeout. `none` embeds the `IndexError` Python would raise on an
out-of-range recheck-interval index. -/
def Checker.delta (cfg : Config) (s : CheckerState) : Option ℚ :=
  if s.request_status = .NONE then some 0
  else if s.request_status = .OK then
    if s.site_status = .UP then some cfg.interval
    else pyGet cfg.ok_recheck_intervals ((s.ok_count : Int) - 1)
  else if s.request_status = .TIMEOUT then
    if Checker.timeout cfg s.timeout_mul_pow = cfg.max_timeout then some cfg.interval
    else some 0
  else if s.site_status = .DOWN then some cfg.interval
  else pyGet cfg.fail_recheck_intervals ((s.fail_count : Int) - 1)

/-- Python tuple comparison `(a, b) <= (c, d)` on pairs of naturals
(lexicographic). -/
def tupleLe (a b : Nat × Nat) : Bool :=
  (a.1 < b.1) || (a.1 = b.1 && a.2 ≤ b.2)

/-- The `LMSChecker.timeout` property getter: the adaptive timeout of the
base `Checker`, floored at 60 when the local clock's
`(now.hour, now.minute)` satisfies `(3, 35) <= (hour, minute) <= (4, 5)`. -/
def LMSChecker.timeout (cfg : Config) (hour minute : Nat) (p : Nat) : ℚ :=
  let t := Checker.timeout cfg p
  if tupleLe (3, 35) (hour, minute) && tupleLe (hour, minute) (4, 5) then pymax t 60
  else t

/-- `Checker.update_status` as inherited by `LMSChecker`: the same code,
but every read of the virtual `timeout` property uses the clock-dependent
`LMSChecker.timeout`. -/
def LMSChecker.update_status (cfg : Config) (hour minute : Nat) (netUp : Bool)
    (s : CheckerState) (value : RequestStatus) : CheckerState × Option String :=
  Checker.update_status_tf cfg (LMSChecker.timeout cfg hour minute) netUp s value

/-- Run a list of probe outcomes (each paired with what the network guard
would answer during that call) through `Checker.update_status`, collecting
the dispatched notifications in order. -/
def runOutcomes (cfg : Config) (s : CheckerState) :
    List (RequestStatus × Bool) → CheckerState × List String
  | [] => (s, [])
  | (v, netUp) :: rest =>
      let r := Checker.update_status cfg netUp s v
      let rr := runOutcomes cfg r.1 rest
      (rr.1, r.2.toList ++ rr.2)

/-- Iterated `Checker._try_decrease_timeout` (the timeout controller's
reaction to `k` consecutive non-timeout probes). -/
def decIter (cfg : Config) (k : Nat) (s : CheckerState) : CheckerState :=
  (Checker.try_decrease_timeout cfg)^[k] s

/-- The failure class of outcomes handled by the final branch of
`Checker.update_status` (connection error / HTTP error / other). -/
def isFailClass : RequestStatus → Bool
  | .HTTP_ERR | .CONNECTION_ERR | .OTHER => true
  | _ => false

/-- States reachable from the freshly constructed state by any sequence of
`Checker.update_status` calls with arbitrary guard answers. -/
inductive Reachable (cfg : Config) : CheckerState → Prop where
  | init : Reachable cfg initState
  | step {s : CheckerState} (v : RequestStatus) (netUp : Bool) :
      Reachable cfg s → Reachable cfg (Checker.update_status cfg netUp s v).1

/-- The `delta` table of the specification (§4.4), written from the spec's
words: per stored outcome, `None` probes immediately; `Ok` waits the steady
interval when up and an ok-recheck interval otherwise; `Timeout` retries
immediately while the effective timeout is below the ceiling and waits the
steady interval at the ceiling; other outcomes wait the steady interval
when down and a fail-recheck interval otherwise. -/
def delta_spec (cfg : Config) (s : CheckerState) : Option ℚ :=
  match s.request_status with
  | .NONE => some 0
  | .OK =>
      if s.site_status = .UP then some cfg.interval
      else pyGet cfg.ok_recheck_intervals ((s.ok_count : Int) - 1)
  | .TIMEOUT =>
      if Checker.timeout cfg s.timeout_mul_pow < cfg.max_timeout then some 0
      else some cfg.interval
  | _ =>
      if s.site_status = .DOWN then some cfg.interval
      else pyGet cfg.fail_recheck_intervals ((s.fail_count : Int) - 1)

/-- The Scenario C configuration: every `Checker.__init__` keyword left at
its default (`base = 5`, `multiplier = 2.5`, `max = 30`). -/
def cfgC : Config := Checker.defaults "lms.hse.ru"

/-- Scenario C start state: freshly constructed, but already `UP`, at
power 0. -/
def sC0 : CheckerState := { initState with site_status := .UP }

/-- Scenario C state after one confirmed timeout: power 1. -/
def sC1 : CheckerState :=
  { request_status := .TIMEOUT, site_status := .UP, ok_count := 0,
    fail_count := 0, timeout_mul_pow := 1, timeout_decrease := 5 }

/-- Scenario C state after two confirmed timeouts: power 2, effective
timeout clamped at the ceiling. -/
def sC2 : CheckerState :=
  { request_status := .TIMEOUT, site_status := .UP, ok_count := 0,
    fail_count := 0, timeout_mul_pow := 2, timeout_decrease := 5 }

/-- Scenario C state after three confirmed timeouts: the third finds the
effective timeout at the ceiling and forces the status to `DOWN`. -/
def sC3 : CheckerState :=
  { request_status := .TIMEOUT, site_status := .DOWN, ok_count := 0,
    fail_count := 0, timeout_mul_pow := 2, timeout_decrease := 5 }

/-- Configuration used only as theorem input for C4's and C1's witnesses:
integer multiplier 2, base 5, ceiling 30, other arguments default. -/
def cfgW : Config := Checker.mkConfig "w5" 5 2 30 5 1 none 2 none 45

/-- A configuration with a negative base timeout but `base ≤ max` and
multiplier above 1, as C4's stated hypotheses allow. -/
def cfgNeg : Config := Checker.mkConfig "neg" (-1) 2 30 5 1 none 2 none 45

/-- A configuration with `fail_recheck = 3` but the default (two-element)
`fail_recheck_intervals`. -/
def cfg10 : Config := Checker.mkConfig "c10" 5 2 30 5 1 none 3 none 45

theorem pymin_eq_min (a b : ℚ) : pymin a b = min a b := (min_def a b).symm

theorem pymax_eq_max (a b : ℚ) : pymax a b = max a b := (max_def a b).symm

theorem sC1_eq : Checker.update_status cfgC true sC0 .TIMEOUT = (sC1, none) := by
  norm_num [Checker.update_status, Checker.update_status_tf, Checker.try_increase_timeout,
    Checker.set_site_status, Checker.timeout, pymin, cfgC, Checker.defaults,
    Checker.mkConfig, sC0, sC1, initState]
  all_goals decide

theorem sC2_eq : Checker.update_status cfgC true sC1 .TIMEOUT = (sC2, none) := by
  norm_num [Checker.update_status, Checker.update_status_tf, Checker.try_increase_timeout,
    Checker.set_site_status, Checker.timeout, pymin, cfgC, Checker.defaults,
    Checker.mkConfig, sC1, sC2]
  all_goals decide

theorem sC3_eq : Checker.update_status cfgC true sC2 .TIMEOUT
    = (sC3, some ("❌ " ++ "lms.hse.ru" ++ " is down")) := by
  norm_num [Checker.update_status, Checker.update_status_tf, Checker.try_increase_timeout,
    Checker.set_site_status, Checker.timeout, pymin, cfgC, Checker.defaults,
    Checker.mkConfig, sC2, sC3]
  all_goals decide

/-- C2 counterexample: with the default `ok_recheck = 1`, feeding `Ok, Ok`
from `UNINITIALIZED` dispatches zero notifications, not exactly one — the
`site_status` setter returns before notifying when the old value is
`UNINITIALIZED`. -/
theorem c2_no_notification_counterexample :
    (runOutcomes (Checker.defaults "d") initState [(.OK, true), (.OK, true)]).2.length
      = 0 := by decide

/-- C2 amended: with `ok_recheck = 1`, starting `UNINITIALIZED`, the status
is still `UNINITIALIZED` after the first `Ok`, becomes `UP` upon the second
`Ok`, and no notification is dispatched (the initial assignment out of
`UNINITIALIZED` is silent). -/
theorem c2_two_ok_up_silent :
    (runOutcomes (Checker.defaults "d") initState [(.OK, true)]).1.site_status
        = .UNINITIALIZED ∧
    (runOutcomes (Checker.defaults "d") initState [(.OK, true), (.OK, true)]).1.site_status
        = .UP ∧
    (runOutcomes (Checker.defaults "d") initState [(.OK, true), (.OK, true)]).2 = [] := by
  decide

/-- C3 counterexample: the run `Ok, Ok` from `UNINITIALIZED` (default
`ok_recheck = 1`) transitions the site status to a new value (`UP`), yet
leaves the ok streak at 2 — the setter's counter reset is skipped on the
initial assignment out of `UNINITIALIZED`. -/
theorem c3_initial_transition_keeps_counters :
    initState.site_status = .UNINITIALIZED ∧
    (runOutcomes (Checker.defaults "e") initState [(.OK, true), (.OK, true)]).1.site_status
        = .UP ∧
    (runOutcomes (Checker.defaults "e") initState [(.OK, true), (.OK, true)]).1.ok_count
        = 2 := by decide

/-- C3 amended: both streak counters are reset to 0 by every `site_status`
transition between two distinct values other than `UNINITIALIZED`
(i.e. excluding the initial assignment out of `UNINITIALIZED`). -/
theorem set_site_status_resets_counters (cfg : Config) (s : CheckerState) (v : SiteStatus)
    (h₁ : s.site_status ≠ .UNINITIALIZED) (h₂ : v ≠ .UNINITIALIZED)
    (h₃ : v ≠ s.site_status) :
    (Checker.set_site_status cfg s v).1.ok_count = 0 ∧
    (Checker.set_site_status cfg s v).1.fail_count = 0 := by
  unfold Checker.set_site_status
  rw [if_neg h₂, if_neg (by rintro (h | h) <;> simp_all)]
  split <;> simp

/-- Witness for `set_site_status_resets_counters` at a concrete transition
`UP → DOWN`. -/
theorem set_site_status_resets_counters_witness :
    (Checker.set_site_status (Checker.defaults "w")
        { initState with site_status := .UP, ok_count := 7, fail_count := 3 } .DOWN).1.ok_count
      = 0 ∧
    (Checker.set_site_status (Checker.defaults "w")
        { initState with site_status := .UP, ok_count := 7, fail_count := 3 } .DOWN).1.fail_count
      = 0 :=
  set_site_status_resets_counters (Checker.defaults "w")
    { initState with site_status := .UP, ok_count := 7, fail_count := 3 } .DOWN
    (by decide) (by decide) (by decide)

/-- C5: when the network guard reports the local network down, a
`TIMEOUT`, `CONNECTION_ERR` or `OTHER` outcome leaves both streak
counters, the site status and the timeout power unchanged. -/
theorem update_status_net_down_frame (cfg : Config) (s : CheckerState) (v : RequestStatus)
    (hv : v = .TIMEOUT ∨ v = .CONNECTION_ERR ∨ v = .OTHER) :
    (Checker.update_status cfg false s v).1.ok_count = s.ok_count ∧
    (Checker.update_status cfg false s v).1.fail_count = s.fail_count ∧
    (Checker.update_status cfg false s v).1.site_status = s.site_status ∧
    (Checker.update_status cfg false s v).1.timeout_mul_pow = s.timeout_mul_pow := by
  rcases hv with h | h | h <;> subst h <;>
    simp [Checker.update_status, Checker.update_status_tf]

/-- Witness for `update_status_net_down_frame`: a guard-suppressed
connection error from a concrete `UP` state changes nothing. -/
theorem update_status_net_down_frame_witness :
    (Checker.update_status (Checker.defaults "w") false
        { initState with site_status := .UP, fail_count := 1 } .CONNECTION_ERR).1.ok_count
      = 0 ∧
    (Checker.update_status (Checker.defaults "w") false
        { initState with site_status := .UP, fail_count := 1 } .CONNECTION_ERR).1.fail_count
      = 1 ∧
    (Checker.update_status (Checker.defaults "w") false
        { initState with site_status := .UP, fail_count := 1 } .CONNECTION_ERR).1.site_status
      = .UP ∧
    (Checker.update_status (Checker.defaults "w") false
        { initState with site_status := .UP, fail_count := 1 } .CONNECTION_ERR).1.timeout_mul_pow
      = 0 :=
  update_status_net_down_frame (Checker.defaults "w")
    { initState with site_status := .UP, fail_count := 1 } .CONNECTION_ERR (by decide)

/-- C6: with the default configuration (`base = 5`, `multiplier = 2.5`,
`max = 30`), starting `UP` at power 0, three confirmed timeouts produce
the effective-timeout sequence `12.5, 30, 30`; the third timeout finds the
effective timeout already at the ceiling and forces the status to `DOWN`
with the fail streak still at 0. -/
theorem three_timeouts_force_down :
    Checker.update_status cfgC true sC0 .TIMEOUT = (sC1, none) ∧
    Checker.update_status cfgC true sC1 .TIMEOUT = (sC2, none) ∧
    Checker.update_status cfgC true sC2 .TIMEOUT
        = (sC3, some ("❌ " ++ "lms.hse.ru" ++ " is down")) ∧
    Checker.timeout cfgC sC1.timeout_mul_pow = 25/2 ∧
    Checker.timeout cfgC sC2.timeout_mul_pow = 30 ∧
    Checker.timeout cfgC sC3.timeout_mul_pow = 30 ∧
    Checker.timeout cfgC sC2.timeout_mul_pow = cfgC.max_timeout ∧
    sC2.site_status = .UP ∧ sC3.site_status = .DOWN ∧ sC3.fail_count = 0 := by
  refine ⟨sC1_eq, sC2_eq, sC3_eq, ?_, ?_, ?_, ?_, by decide, by decide, by decide⟩ <;>
    norm_num [Checker.timeout, pymin, cfgC, Checker.defaults, Checker.mkConfig,
      sC1, sC2, sC3]

/-- C7: `Checker.delta` coincides with the specification's delta table
(`delta_spec`) on every configuration and state. -/
theorem delta_eq_delta_spec (cfg : Config) (s : CheckerState) :
    Checker.delta cfg s = delta_spec cfg s := by
  unfold Checker.delta delta_spec
  rcases h : s.request_status <;> simp [h]
  have hle : Checker.timeout cfg s.timeout_mul_pow ≤ cfg.max_timeout := by
    rw [Checker.timeout, pymin_eq_min]; exact min_le_right _ _
  rcases eq_or_lt_of_le hle with h' | h'
  · simp [h', not_lt_of_le (le_of_eq h'.symm)]
  · simp [h', ne_of_lt h']

/-- C8: the `LMSChecker` timeout override returns `max(adaptive, 60)` when
the clock reading (with a valid minute value) is chronologically between
03:35 and 04:05 inclusive, and the unmodified adaptive timeout otherwise. -/
theorem lms_timeout_window (cfg : Config) (hour minute p : Nat) (hm : minute < 60) :
    LMSChecker.timeout cfg hour minute p =
      if 3 * 60 + 35 ≤ hour * 60 + minute ∧ hour * 60 + minute ≤ 4 * 60 + 5 then
        max (Checker.timeout cfg p) 60
      else Checker.timeout cfg p := by
  have hwin : (tupleLe (3, 35) (hour, minute) && tupleLe (hour, minute) (4, 5)) = true
      ↔ (3 * 60 + 35 ≤ hour * 60 + minute ∧ hour * 60 + minute ≤ 4 * 60 + 5) := by
    simp only [tupleLe, Bool.and_eq_true, Bool.or_eq_true, decide_eq_true_eq]
    omega
  simp only [LMSChecker.timeout, pymax_eq_max]
  by_cases hb : (tupleLe (3, 35) (hour, minute) && tupleLe (hour, minute) (4, 5)) = true
  · simp [hb, hwin.mp hb]
  · have hb' := (not_iff_not.mpr hwin).mp hb
    simp [hb, hb']

/-- Witness for `lms_timeout_window` at clock 03:50 (inside the window). -/
theorem lms_timeout_window_witness :
    LMSChecker.timeout (Checker.defaults "w3") 3 50 0 =
      if 3 * 60 + 35 ≤ 3 * 60 + 50 ∧ 3 * 60 + 50 ≤ 4 * 60 + 5 then
        max (Checker.timeout (Checker.defaults "w3") 0) 60
      else Checker.timeout (Checker.defaults "w3") 0 :=
  lms_timeout_window (Checker.defaults "w3") 3 50 0 (by decide)

theorem lms_window_timeout_ne (cfg : Config) (hour minute p : Nat)
    (hw : (tupleLe (3, 35) (hour, minute) && tupleLe (hour, minute) (4, 5)) = true)
    (hmax : cfg.max_timeout < 60) :
    LMSChecker.timeout cfg hour minute p ≠ cfg.max_timeout := by
  have h60 : (60 : ℚ) ≤ LMSChecker.timeout cfg hour minute p := by
    simp only [LMSChecker.timeout, hw, if_true, pymax_eq_max]
    exact le_max_right _ _
  exact fun h => absurd (h ▸ h60) (not_le_of_lt hmax)

theorem lms_window_timeout_step (cfg : Config) (hour minute : Nat) (s : CheckerState)
    (hw : (tupleLe (3, 35) (hour, minute) && tupleLe (hour, minute) (4, 5)) = true)
    (hmax : cfg.max_timeout < 60) :
    (LMSChecker.update_status cfg hour minute true s .TIMEOUT).1
      = { s with request_status := .TIMEOUT, ok_count := 0, fail_count := 0,
                 timeout_mul_pow := s.timeout_mul_pow + 1,
                 timeout_decrease := cfg.timeout_decrease_after } := by
  have hne := lms_window_timeout_ne cfg hour minute s.timeout_mul_pow hw hmax
  simp [LMSChecker.update_status, Checker.update_status_tf,
    Checker.try_increase_timeout, hne]

/-- C9: while the clock is inside the 03:35–04:05 window and the 60-second
floor exceeds `max_timeout`, a confirmed timeout never takes the
force-`DOWN` ceiling branch (the overridden timeout is never equal to
`max_timeout`): the site status is untouched and the power is incremented,
and iterating such timeouts grows the power without bound. -/
theorem lms_window_never_forces_down (cfg : Config) (hour minute : Nat) (s : CheckerState)
    (hw : (tupleLe (3, 35) (hour, minute) && tupleLe (hour, minute) (4, 5)) = true)
    (hmax : cfg.max_timeout < 60) :
    (LMSChecker.update_status cfg hour minute true s .TIMEOUT).1.timeout_mul_pow
        = s.timeout_mul_pow + 1 ∧
    (LMSChecker.update_status cfg hour minute true s .TIMEOUT).1.site_status
        = s.site_status ∧
    ∀ k : Nat,
      ((fun t => (LMSChecker.update_status cfg hour minute true t .TIMEOUT).1)^[k]
          s).timeout_mul_pow = s.timeout_mul_pow + k := by
  refine ⟨?_, ?_, ?_⟩
  · rw [lms_window_timeout_step cfg hour minute s hw hmax]
  · rw [lms_window_timeout_step cfg hour minute s hw hmax]
  · intro k
    induction k with
    | zero => simp
    | succ k ih =>
        rw [Function.iterate_succ_apply',
          lms_window_timeout_step cfg hour minute _ hw hmax]
        dsimp only
        omega

/-- Witness for `lms_window_never_forces_down`: at clock 03:50 with the
default ceiling 30, one confirmed timeout raises the power from 0 to 1 and
three raise it to 3, with the status untouched. -/
theorem lms_window_never_forces_down_witness :
    (LMSChecker.update_status (Checker.defaults "w4") 3 50 true initState
        .TIMEOUT).1.timeout_mul_pow = initState.timeout_mul_pow + 1 ∧
    ((fun t => (LMSChecker.update_status (Checker.defaults "w4") 3 50 true t .TIMEOUT).1)^[3]
        initState).timeout_mul_pow = initState.timeout_mul_pow + 3 :=
  ⟨(lms_window_never_forces_down (Checker.defaults "w4") 3 50 initState (by decide)
      (by decide)).1,
   (lms_window_never_forces_down (Checker.defaults "w4") 3 50 initState (by decide)
      (by decide)).2.2 3⟩

theorem try_decrease_countdown (cfg : Config) (k : Nat) : ∀ s : CheckerState,
    0 < s.timeout_mul_pow → (k : Int) < s.timeout_decrease →
    (decIter cfg k s).timeout_mul_pow = s.timeout_mul_pow ∧
    (decIter cfg k s).timeout_decrease = s.timeout_decrease - k := by
  induction k with
  | zero => intro s _ _; simp [decIter]
  | succ k ih =>
      intro s h1 h2
      have hpow : ¬ s.timeout_mul_pow = 0 := by omega
      have hd : ¬ s.timeout_decrease - 1 = 0 := by push_cast at h2; omega
      have hstep : Checker.try_decrease_timeout cfg s
          = { s with timeout_decrease := s.timeout_decrease - 1 } := by
        simp [Checker.try_decrease_timeout, hpow, hd]
      have hrec : decIter cfg (k + 1) s
          = decIter cfg k (Checker.try_decrease_timeout cfg s) := by
        simp [decIter, Function.iterate_succ_apply]
      obtain ⟨ha, hb⟩ := ih { s with timeout_decrease := s.timeout_decrease - 1 }
        (by simpa using h1) (by dsimp only; push_cast at h2 ⊢; omega)
      rw [hrec, hstep]
      refine ⟨by simpa using ha, ?_⟩
      rw [hb]; dsimp only; push_cast; ring

theorem try_decrease_step_down (cfg : Config) (s : CheckerState) (k : Nat)
    (h1 : 0 < s.timeout_mul_pow) (h2 : (k : Int) = s.timeout_decrease)
    (h3 : 1 ≤ s.timeout_decrease) :
    (decIter cfg k s).timeout_mul_pow = s.timeout_mul_pow - 1 ∧
    (decIter cfg k s).timeout_decrease = cfg.timeout_decrease_after := by
  obtain ⟨j, rfl⟩ : ∃ j, k = j + 1 := by
    refine ⟨k - 1, ?_⟩
    have : (1 : Int) ≤ (k : Int) := le_of_le_of_eq h3 h2.symm
    omega
  obtain ⟨ha, hb⟩ := try_decrease_countdown cfg j s h1 (by push_cast at h2 ⊢; omega)
  have hrec : decIter cfg (j + 1) s
      = Checker.try_decrease_timeout cfg (decIter cfg j s) := by
    simp [decIter, Function.iterate_succ_apply']
  have hd1 : (decIter cfg j s).timeout_decrease - 1 = 0 := by
    rw [hb]; push_cast at h2 ⊢; omega
  have hpow : ¬ (decIter cfg j s).timeout_mul_pow = 0 := by rw [ha]; omega
  rw [ha] at hpow
  rw [hrec]
  simp [Checker.try_decrease_timeout, hpow, hd1, ha]

theorem update_timeout_grow_step (cfg : Config) (s : CheckerState)
    (hne : Checker.timeout cfg s.timeout_mul_pow ≠ cfg.max_timeout) :
    (Checker.update_status cfg true s .TIMEOUT).1
      = { s with request_status := .TIMEOUT, ok_count := 0, fail_count := 0,
                 timeout_mul_pow := s.timeout_mul_pow + 1,
                 timeout_decrease := cfg.timeout_decrease_after } := by
  simp [Checker.update_status, Checker.update_status_tf,
    Checker.try_increase_timeout, hne]

/-- C4 amended: with a positive base timeout, `base ≤ max`, multiplier
above 1: the effective timeout lies in `[base, max]`; a confirmed
non-local timeout strictly increases it while it is below the ceiling and
leaves the power unchanged at the ceiling; and with power positive and the
decrease countdown full, `tryDecrease` lowers the power by exactly one
only at the `decreaseThreshold`-th consecutive invocation (it is unchanged
by any fewer). -/
theorem timeout_controller_props (cfg : Config) (p : Nat) (s : CheckerState) :
    (0 < cfg.timeout → cfg.timeout ≤ cfg.max_timeout → 1 < cfg.timeout_multiplier →
      cfg.timeout ≤ Checker.timeout cfg p ∧ Checker.timeout cfg p ≤ cfg.max_timeout) ∧
    (0 < cfg.timeout → 1 < cfg.timeout_multiplier →
      Checker.timeout cfg s.timeout_mul_pow < cfg.max_timeout →
      Checker.timeout cfg s.timeout_mul_pow
        < Checker.timeout cfg (Checker.update_status cfg true s .TIMEOUT).1.timeout_mul_pow) ∧
    (Checker.timeout cfg s.timeout_mul_pow = cfg.max_timeout →
      (Checker.update_status cfg true s .TIMEOUT).1.timeout_mul_pow = s.timeout_mul_pow) ∧
    (∀ k : Nat, 0 < s.timeout_mul_pow → s.timeout_decrease = cfg.timeout_decrease_after →
      1 ≤ cfg.timeout_decrease_after →
      ((k : Int) < cfg.timeout_decrease_after →
          (decIter cfg k s).timeout_mul_pow = s.timeout_mul_pow) ∧
      ((k : Int) = cfg.timeout_decrease_after →
          (decIter cfg k s).timeout_mul_pow = s.timeout_mul_pow - 1)) := by
  have hpos : ∀ (ht : 0 < cfg.timeout) (hm : 1 < cfg.timeout_multiplier) (q : Nat),
      cfg.timeout ≤ cfg.timeout * cfg.timeout_multiplier ^ q := by
    intro ht hm q
    exact le_mul_of_one_le_right (le_of_lt ht) (one_le_pow₀ (le_of_lt hm))
  refine ⟨?_, ?_, ?_, ?_⟩
  · intro ht hbm hm
    rw [Checker.timeout, pymin_eq_min]
    exact ⟨le_min (hpos ht hm p) hbm, min_le_right _ _⟩
  · intro ht hm hlt
    have hne := ne_of_lt hlt
    rw [update_timeout_grow_step cfg s hne]
    dsimp only
    have hprod : cfg.timeout * cfg.timeout_multiplier ^ s.timeout_mul_pow < cfg.max_timeout := by
      rw [Checker.timeout, pymin_eq_min] at hlt
      rcases min_lt_iff.mp hlt with h | h
      · exact h
      · exact absurd h (lt_irrefl _)
    have heq : Checker.timeout cfg s.timeout_mul_pow
        = cfg.timeout * cfg.timeout_multiplier ^ s.timeout_mul_pow := by
      rw [Checker.timeout, pymin_eq_min]
      exact min_eq_left (le_of_lt hprod)
    have hgrow : cfg.timeout * cfg.timeout_multiplier ^ s.timeout_mul_pow
        < cfg.timeout * cfg.timeout_multiplier ^ (s.timeout_mul_pow + 1) := by
      have hp : (0:ℚ) < cfg.timeout_multiplier ^ s.timeout_mul_pow :=
        pow_pos (lt_trans zero_lt_one hm) _
      rw [pow_succ]
      nlinarith [mul_pos ht hp]
    rw [heq, Checker.timeout, pymin_eq_min]
    exact lt_min hgrow hprod
  · intro heq
    simp [Checker.update_status, Checker.update_status_tf,
      Checker.try_increase_timeout, Checker.set_site_status, heq]
    split_ifs <;> simp
  · intro k h1 h2 h3
    constructor
    · intro hk
      exact (try_decrease_countdown cfg k s h1 (by omega)).1
    · intro hk
      exact (try_decrease_step_down cfg s k h1 (by omega) (by omega)).1

/-- Witness for `timeout_controller_props`: the range bound at power 1 for
`cfgW`, and the countdown parts at `k = 2 < 5` and `k = 5`. -/
theorem timeout_controller_props_witness :
    (cfgW.timeout ≤ Checker.timeout cfgW 1 ∧
      Checker.timeout cfgW 1 ≤ cfgW.max_timeout) ∧
    (decIter cfgW 2 { initState with timeout_mul_pow := 1, timeout_decrease := 5
        }).timeout_mul_pow = 1 ∧
    (decIter cfgW 5 { initState with timeout_mul_pow := 1, timeout_decrease := 5
        }).timeout_mul_pow = 0 :=
  ⟨(timeout_controller_props cfgW 1 initState).1 (by decide) (by decide) (by decide),
   ((timeout_controller_props cfgW 1
        { initState with timeout_mul_pow := 1, timeout_decrease := 5 }).2.2.2 2
      (by decide) (by decide) (by decide)).1 (by decide),
   ((timeout_controller_props cfgW 1
        { initState with timeout_mul_pow := 1, timeout_decrease := 5 }).2.2.2 5
      (by decide) (by decide) (by decide)).2 (by decide)⟩

/-- C4 counterexample: under the claim's stated hypotheses alone
(`max ≥ base`, `multiplier > 1`), the effective timeout can fall below
`base`, leaving the claimed interval `[base, max]`. -/
theorem c4_negative_base_counterexample :
    cfgNeg.timeout ≤ cfgNeg.max_timeout ∧ 1 < cfgNeg.timeout_multiplier ∧
    Checker.timeout cfgNeg 1 < cfgNeg.timeout := by
  refine ⟨by decide, by decide, ?_⟩
  norm_num [Checker.timeout, pymin, cfgNeg, Checker.mkConfig]

@[simp] theorem try_decrease_timeout_site (cfg : Config) (s : CheckerState) :
    (Checker.try_decrease_timeout cfg s).site_status = s.site_status := by
  simp only [Checker.try_decrease_timeout]
  split_ifs <;> rfl

@[simp] theorem try_decrease_timeout_ok (cfg : Config) (s : CheckerState) :
    (Checker.try_decrease_timeout cfg s).ok_count = s.ok_count := by
  simp only [Checker.try_decrease_timeout]
  split_ifs <;> rfl

@[simp] theorem try_decrease_timeout_fail (cfg : Config) (s : CheckerState) :
    (Checker.try_decrease_timeout cfg s).fail_count = s.fail_count := by
  simp only [Checker.try_decrease_timeout]
  split_ifs <;> rfl

@[simp] theorem try_decrease_timeout_rs (cfg : Config) (s : CheckerState) :
    (Checker.try_decrease_timeout cfg s).request_status = s.request_status := by
  simp only [Checker.try_decrease_timeout]
  split_ifs <;> rfl

/-- C1 counterexample: with every constructor default (`fail_recheck = 2`,
so the claim requires 3 consecutive failure-class outcomes before any
transition to `DOWN`), a sequence of three confirmed timeouts — none of
which is a failure-class outcome, with the fail streak never leaving 0 —
still changes the site status from `UP` to `DOWN`, through the
timeout-ceiling rule. -/
theorem c1_forced_down_counterexample :
    sC0.site_status = .UP ∧
    (runOutcomes cfgC sC0
        [(.TIMEOUT, true), (.TIMEOUT, true), (.TIMEOUT, true)]).1.site_status = .DOWN ∧
    ([(RequestStatus.TIMEOUT, true), (.TIMEOUT, true), (.TIMEOUT, true)].all
        (fun q => !(isFailClass q.1))) = true ∧
    cfgC.fail_recheck = 2 ∧
    (runOutcomes cfgC sC0
        [(.TIMEOUT, true), (.TIMEOUT, true), (.TIMEOUT, true)]).1.fail_count = 0 := by
  have hrun : (runOutcomes cfgC sC0
      [(.TIMEOUT, true), (.TIMEOUT, true), (.TIMEOUT, true)]).1 = sC3 := by
    simp only [runOutcomes, sC1_eq, sC2_eq, sC3_eq]
  refine ⟨by decide, by rw [hrun]; decide, by decide, by decide, by rw [hrun]; decide⟩

/-- C1 amended: the site status changes value only when (a) an `OK`
completes an ok streak of exactly `ok_recheck + 1` (transition to `UP`),
(b) a confirmed failure-class outcome (`HTTP_ERR`, or `CONNECTION_ERR` /
`OTHER` with the network guard reporting up) completes a fail streak of
exactly `fail_recheck + 1` (transition to `DOWN`), or (c) a confirmed
timeout arrives while the effective timeout equals `max_timeout`, which
forces `DOWN` bypassing the streak; conversely those streak completions do
fire, and the opposing streak is reset to 0 by every confirmed
disqualifying outcome (an `OK` clears the fail streak unless already
`DOWN`, a confirmed failure-class outcome clears the ok streak unless
already `UP`, and a confirmed timeout clears both). -/
theorem update_status_hysteresis (cfg : Config) (netUp : Bool) (s : CheckerState)
    (v : RequestStatus) :
    ((Checker.update_status cfg netUp s v).1.site_status ≠ s.site_status →
      (v = .OK ∧ (Checker.update_status cfg netUp s v).1.site_status = .UP ∧
        s.ok_count + 1 = cfg.ok_recheck + 1) ∨
      (isFailClass v = true ∧ (v = .HTTP_ERR ∨ netUp = true) ∧
        (Checker.update_status cfg netUp s v).1.site_status = .DOWN ∧
        s.fail_count + 1 = cfg.fail_recheck + 1) ∨
      (v = .TIMEOUT ∧ netUp = true ∧
        (Checker.update_status cfg netUp s v).1.site_status = .DOWN ∧
        Checker.timeout cfg s.timeout_mul_pow = cfg.max_timeout)) ∧
    (v = .OK → s.site_status ≠ .UP → s.ok_count + 1 = cfg.ok_recheck + 1 →
      (Checker.update_status cfg netUp s v).1.site_status = .UP) ∧
    (isFailClass v = true → (v = .HTTP_ERR ∨ netUp = true) → s.site_status ≠ .DOWN →
      s.fail_count + 1 = cfg.fail_recheck + 1 →
      (Checker.update_status cfg netUp s v).1.site_status = .DOWN) ∧
    (v = .OK → s.site_status ≠ .DOWN →
      (Checker.update_status cfg netUp s v).1.fail_count = 0) ∧
    (isFailClass v = true → (v = .HTTP_ERR ∨ netUp = true) → s.site_status ≠ .UP →
      (Checker.update_status cfg netUp s v).1.ok_count = 0) ∧
    (v = .TIMEOUT → netUp = true →
      (Checker.update_status cfg netUp s v).1.ok_count = 0 ∧
      (Checker.update_status cfg netUp s v).1.fail_count = 0) := by
  rcases v <;> rcases hss : s.site_status <;> rcases netUp <;>
    simp [Checker.update_status, Checker.update_status_tf, Checker.try_increase_timeout,
      Checker.set_site_status, isFailClass, hss] <;>
    split_ifs <;> simp_all

/-- Witness for `update_status_hysteresis`: an `OK` completing the ok
streak at a concrete `DOWN` state flips the status to `UP`. -/
theorem update_status_hysteresis_witness :
    (Checker.update_status cfgW true
        { initState with site_status := .DOWN, ok_count := 1 } .OK).1.site_status = .UP :=
  (update_status_hysteresis cfgW true
      { initState with site_status := .DOWN, ok_count := 1 } .OK).2.1 rfl (by decide)
    (by decide)

theorem counts_invariant_step (cfg : Config) (netUp : Bool) (v : RequestStatus)
    (s : CheckerState)
    (h1 : s.site_status ≠ .DOWN → s.fail_count ≤ cfg.fail_recheck)
    (h2 : s.site_status ≠ .UP → s.ok_count ≤ cfg.ok_recheck) :
    ((Checker.update_status cfg netUp s v).1.site_status ≠ .DOWN →
      (Checker.update_status cfg netUp s v).1.fail_count ≤ cfg.fail_recheck) ∧
    ((Checker.update_status cfg netUp s v).1.site_status ≠ .UP →
      (Checker.update_status cfg netUp s v).1.ok_count ≤ cfg.ok_recheck) := by
  rcases v <;> rcases hss : s.site_status <;> rcases netUp <;>
    simp_all [Checker.update_status, Checker.update_status_tf, Checker.try_increase_timeout,
      Checker.set_site_status] <;>
    split_ifs <;> simp_all <;> omega

theorem reachable_counts (cfg : Config) (s : CheckerState) (h : Reachable cfg s) :
    (s.site_status ≠ .DOWN → s.fail_count ≤ cfg.fail_recheck) ∧
    (s.site_status ≠ .UP → s.ok_count ≤ cfg.ok_recheck) := by
  induction h with
  | init => simp [initState]
  | step v netUp _ ih => exact counts_invariant_step _ netUp v _ ih.1 ih.2

/-- C10: the constructor default for `fail_recheck_intervals` is the fixed
two-element list `[10, 20]` whatever `fail_recheck` is; with
`fail_recheck ≤ 2` and that default list, the fail-recheck index
`fail_recheck_intervals[fail_count - 1]` used by `Checker.delta` is in
bounds at every reachable state that is not `DOWN`; and with
`fail_recheck = 3` and the same default, a concrete execution (three
confirmed connection errors from the fresh state) drives that index out of
bounds, making `Checker.delta` partial there. -/
theorem fail_recheck_default_bounds :
    (∀ (d : String) (t tm mt iv : ℚ) (tda : Int) (ork frk : Nat)
        (oi : Option (List ℚ)),
      (Checker.mkConfig d t tm mt tda ork oi frk none iv).fail_recheck_intervals
        = [10, 20]) ∧
    (∀ (cfg : Config) (s : CheckerState), cfg.fail_recheck ≤ 2 →
      cfg.fail_recheck_intervals = [10, 20] → Reachable cfg s →
      s.site_status ≠ .DOWN →
      (pyGet cfg.fail_recheck_intervals ((s.fail_count : Int) - 1)).isSome = true) ∧
    ((runOutcomes cfg10 initState
        [(.CONNECTION_ERR, true), (.CONNECTION_ERR, true),
          (.CONNECTION_ERR, true)]).1.site_status ≠ .DOWN ∧
      Checker.delta cfg10
        (runOutcomes cfg10 initState
          [(.CONNECTION_ERR, true), (.CONNECTION_ERR, true),
            (.CONNECTION_ERR, true)]).1 = none) := by
  refine ⟨fun d t tm mt iv tda ork frk oi => rfl, ?_, by decide, by decide⟩
  intro cfg s hfr hlist hreach hds
  have hinv := (reachable_counts cfg s hreach).1 hds
  rw [hlist]
  have hcases : s.fail_count = 0 ∨ s.fail_count = 1 ∨ s.fail_count = 2 := by omega
  rcases hcases with h | h | h <;> rw [h] <;> decide

/-- Witness for `fail_recheck_default_bounds`: the fresh state is
reachable and its fail-recheck index lands in the default list. -/
theorem fail_recheck_default_bounds_witness :
    (pyGet (Checker.defaults "w6").fail_recheck_intervals
        ((initState.fail_count : Int) - 1)).isSome = true :=
  fail_recheck_default_bounds.2.1 (Checker.defaults "w6") initState (by decide)
    (by decide) Reachable.init (by decide)
